import Mathlib

/-!
Shallow embedding of the kiglent repository (vector/matrix math, event
dispatch, key constants, bordered-rectangle color validation, and the audio
driver factories), with theorems checking the natural-language specification
against the code.

Numeric values are modelled as exact rationals (`ℚ`); Python `float`
arithmetic at every concrete input used below is exact, so the concrete
evaluations agree with the source bit-for-bit.
-/

namespace Kiglent

/-- Python exceptions that the embedded code can raise. -/
inductive PyError where
  | nameError (name : String)
  | valueError
  deriving DecidableEq, Repr

/-! ## Vectors — src/kiglent/vector.py

`Vec2`/`Vec3`/`Vec4` are `typing.NamedTuple`s of 2/3/4 floats.  Their
arithmetic operators first try a component-paired operation (treating the
operand as a same-arity iterable) and fall back to scalar broadcast when
subscripting the operand raises `TypeError`.  We model the operand of an
arithmetic operator as either a same-arity tuple or a (non-subscriptable)
scalar, mirroring which of the two code paths runs. -/

structure Vec2 where
  x : ℚ := 0
  y : ℚ := 0
  deriving DecidableEq, Repr

structure Vec3 where
  x : ℚ := 0
  y : ℚ := 0
  z : ℚ := 0
  deriving DecidableEq, Repr

structure Vec4 where
  x : ℚ := 0
  y : ℚ := 0
  z : ℚ := 0
  w : ℚ := 0
  deriving DecidableEq, Repr

/-- Operand of a `Vec2` arithmetic operator: a 2-element iterable or a scalar. -/
inductive Vec2Arg where
  | tup (x y : ℚ)
  | scalar (s : ℚ)
  deriving DecidableEq, Repr

/-- Operand of a `Vec3` arithmetic operator. -/
inductive Vec3Arg where
  | tup (x y z : ℚ)
  | scalar (s : ℚ)
  deriving DecidableEq, Repr

/-- Operand of a `Vec4` arithmetic operator. -/
inductive Vec4Arg where
  | tup (x y z w : ℚ)
  | scalar (s : ℚ)
  deriving DecidableEq, Repr

/-- `Vec2.__add__` (src/kiglent/vector.py lines 50-58): component-paired
addition, falling back to scalar broadcast on `TypeError`. -/
def Vec2.add (v : Vec2) : Vec2Arg → Vec2
  | .tup ox oy => ⟨v.x + ox, v.y + oy⟩
  | .scalar s => ⟨v.x + s, v.y + s⟩

/-- `Vec2.__radd__` (lines 60-66): delegates to `__add__`; numeric operands
never raise inside `__add__`, so the `other == 0` special case is
unreachable for them and the result is that of `__add__`. -/
def Vec2.radd (v : Vec2) (other : Vec2Arg) : Vec2 :=
  v.add other

/-- `Vec3.__add__` (lines 379-387). -/
def Vec3.add (v : Vec3) : Vec3Arg → Vec3
  | .tup ox oy oz => ⟨v.x + ox, v.y + oy, v.z + oz⟩
  | .scalar s => ⟨v.x + s, v.y + s, v.z + s⟩

/-- `Vec3.__radd__` (lines 389-395). -/
def Vec3.radd (v : Vec3) (other : Vec3Arg) : Vec3 :=
  v.add other

/-- `Vec4.__add__` (lines 681-689); note the source writes the operand on
the left of each component sum. -/
def Vec4.add (v : Vec4) : Vec4Arg → Vec4
  | .tup ox oy oz ow => ⟨ox + v.x, oy + v.y, oz + v.z, ow + v.w⟩
  | .scalar s => ⟨s + v.x, s + v.y, s + v.z, s + v.w⟩

/-- `Vec4.__radd__` (lines 691-697). -/
def Vec4.radd (v : Vec4) (other : Vec4Arg) : Vec4 :=
  v.add other

/-- `Vec3.cross` (lines 548-558). -/
def Vec3.cross (v : Vec3) (other : Vec3) : Vec3 :=
  ⟨v.y * other.z - v.z * other.y,
   v.z * other.x - v.x * other.z,
   v.x * other.y - v.y * other.x⟩

/-- `Vec3.dot` (lines 560-566). -/
def Vec3.dot (v : Vec3) (other : Vec3) : ℚ :=
  v.x * other.x + v.y * other.y + v.z * other.z

/-- `Vec3.__mul__` with a scalar operand (lines 417-425, fallback branch). -/
def Vec3.mulScalar (v : Vec3) (s : ℚ) : Vec3 :=
  ⟨v.x * s, v.y * s, v.z * s⟩

/-- `Vec3.__add__` with another `Vec3` (component-paired branch). -/
def Vec3.addVec (v other : Vec3) : Vec3 :=
  ⟨v.x + other.x, v.y + other.y, v.z + other.z⟩

/-! ## Matrices — src/kiglent/matrix.py

`Mat3` stores 9 floats `a..i` column-major, `Mat4` stores 16 floats `a..p`
column-major; both default to the identity.

At runtime `typing.TYPE_CHECKING` is `False`, so the
`from kiglent.vector import Vec3, Vec4` at src/kiglent/matrix.py lines 21-22
never executes: the names `Vec3` and `Vec4` are NOT bound in the module
namespace when the module's functions run.  Any statement in the module body
that evaluates `Vec3(...)` or `Vec4(...)` therefore raises `NameError`. -/

/-- Whether the name `Vec3` is bound in the `kiglent.matrix` module namespace
at runtime (it is not: the import is guarded by `typing.TYPE_CHECKING`). -/
def matrixModuleBindsVec3 : Bool := false

/-- Whether the name `Vec4` is bound in the `kiglent.matrix` module namespace
at runtime (it is not: the import is guarded by `typing.TYPE_CHECKING`). -/
def matrixModuleBindsVec4 : Bool := false

structure Mat3 where
  a : ℚ := 1
  b : ℚ := 0
  c : ℚ := 0
  d : ℚ := 0
  e : ℚ := 1
  f : ℚ := 0
  g : ℚ := 0
  h : ℚ := 0
  i : ℚ := 1
  deriving DecidableEq, Repr

/-- `Mat3()`: the all-default (identity) matrix. -/
def Mat3.identity : Mat3 := {}

structure Mat4 where
  a : ℚ := 1
  b : ℚ := 0
  c : ℚ := 0
  d : ℚ := 0
  e : ℚ := 0
  f : ℚ := 1
  g : ℚ := 0
  h : ℚ := 0
  i : ℚ := 0
  j : ℚ := 0
  k : ℚ := 1
  l : ℚ := 0
  m : ℚ := 0
  n : ℚ := 0
  o : ℚ := 0
  p : ℚ := 1
  deriving DecidableEq, Repr

/-- `Mat4()`: the all-default (identity) matrix. -/
def Mat4.identity : Mat4 := {}

/-- The matrix-by-matrix branch of `Mat3.__matmul__`
(src/kiglent/matrix.py lines 126-140): the operand unpacked into nine
elements `b11..b33`, columns multiplied and summed exactly as written. -/
def Mat3.matmulMat (m o : Mat3) : Mat3 :=
  ⟨m.a * o.a + m.d * o.b + m.g * o.c,
   m.b * o.a + m.e * o.b + m.h * o.c,
   m.c * o.a + m.f * o.b + m.i * o.c,
   m.a * o.d + m.d * o.e + m.g * o.f,
   m.b * o.d + m.e * o.e + m.h * o.f,
   m.c * o.d + m.f * o.e + m.i * o.f,
   m.a * o.g + m.d * o.h + m.g * o.i,
   m.b * o.g + m.e * o.h + m.h * o.i,
   m.c * o.g + m.f * o.h + m.i * o.i⟩

/-- Operand of `Mat3.__matmul__`: a 9-element matrix (first unpack succeeds)
or a 3-element vector (first unpack raises `ValueError`). -/
inductive Mat3MatmulArg where
  | mat (o : Mat3)
  | vec (v : Vec3)
  deriving DecidableEq, Repr

/-- `Mat3.__matmul__` (src/kiglent/matrix.py lines 126-149).  A 9-element
operand takes the matrix branch; a 3-element operand raises `ValueError` in
the first unpack, and the handler then evaluates `Vec3(...)` — but `Vec3` is
unbound at runtime (lines 21-22 are `TYPE_CHECKING`-guarded), so the call
raises `NameError` instead of returning the product vector. -/
def Mat3.matmul (m : Mat3) : Mat3MatmulArg → Except PyError (Mat3 ⊕ Vec3)
  | .mat o => .ok (.inl (m.matmulMat o))
  | .vec v =>
      if matrixModuleBindsVec3 then
        .ok (.inr ⟨m.a * v.x + m.d * v.y + m.g * v.z,
                   m.b * v.x + m.e * v.y + m.h * v.z,
                   m.c * v.x + m.f * v.y + m.i * v.z⟩)
      else
        .error (.nameError "Vec3")

/-- The matrix-by-matrix branch of `Mat4.__matmul__`
(src/kiglent/matrix.py lines 463-482). -/
def Mat4.matmulMat (x o : Mat4) : Mat4 :=
  ⟨x.a * o.a + x.e * o.b + x.i * o.c + x.m * o.d,
   x.b * o.a + x.f * o.b + x.j * o.c + x.n * o.d,
   x.c * o.a + x.g * o.b + x.k * o.c + x.o * o.d,
   x.d * o.a + x.h * o.b + x.l * o.c + x.p * o.d,
   x.a * o.e + x.e * o.f + x.i * o.g + x.m * o.h,
   x.b * o.e + x.f * o.f + x.j * o.g + x.n * o.h,
   x.c * o.e + x.g * o.f + x.k * o.g + x.o * o.h,
   x.d * o.e + x.h * o.f + x.l * o.g + x.p * o.h,
   x.a * o.i + x.e * o.j + x.i * o.k + x.m * o.l,
   x.b * o.i + x.f * o.j + x.j * o.k + x.n * o.l,
   x.c * o.i + x.g * o.j + x.k * o.k + x.o * o.l,
   x.d * o.i + x.h * o.j + x.l * o.k + x.p * o.l,
   x.a * o.m + x.e * o.n + x.i * o.o + x.m * o.p,
   x.b * o.m + x.f * o.n + x.j * o.o + x.n * o.p,
   x.c * o.m + x.g * o.n + x.k * o.o + x.o * o.p,
   x.d * o.m + x.h * o.n + x.l * o.o + x.p * o.p⟩

/-- Operand of `Mat4.__matmul__`: a 16-element matrix or a 4-element vector. -/
inductive Mat4MatmulArg where
  | mat (o : Mat4)
  | vec (v : Vec4)
  deriving DecidableEq, Repr

/-- `Mat4.__matmul__` (src/kiglent/matrix.py lines 463-492).  A 16-element
operand takes the matrix branch; a 4-element operand raises `ValueError` in
the first unpack, and the handler then evaluates `Vec4(...)` — but `Vec4` is
unbound at runtime, so the call raises `NameError`. -/
def Mat4.matmul (x : Mat4) : Mat4MatmulArg → Except PyError (Mat4 ⊕ Vec4)
  | .mat o => .ok (.inl (x.matmulMat o))
  | .vec v =>
      if matrixModuleBindsVec4 then
        .ok (.inr ⟨v.x * x.a + v.y * x.e + v.z * x.i + v.w * x.m,
                   v.x * x.b + v.y * x.f + v.z * x.j + v.w * x.n,
                   v.x * x.c + v.y * x.g + v.z * x.k + v.w * x.o,
                   v.x * x.d + v.y * x.h + v.z * x.l + v.w * x.p⟩)
      else
        .error (.nameError "Vec4")

/-- `Mat3.translate` (src/kiglent/matrix.py lines 53-54):
`self @ Mat3(1.0, 0.0, 0.0, 0.0, 1.0, 0.0, -tx, ty, 1.0)`.  The operand is a
9-element `Mat3`, so `__matmul__` deterministically takes its matrix branch. -/
def Mat3.translate (m : Mat3) (tx ty : ℚ) : Mat3 :=
  m.matmulMat ⟨1, 0, 0, 0, 1, 0, -tx, ty, 1⟩

/-- `Mat4.orthogonal_projection` (src/kiglent/matrix.py lines 191-215). -/
def Mat4.orthogonal_projection (left right bottom top z_near z_far : ℚ) : Mat4 :=
  let width := right - left
  let height := top - bottom
  let depth := z_far - z_near
  let s_x := 2 / width
  let s_y := 2 / height
  let s_z := 2 / -depth
  let t_x := -(right + left) / width
  let t_y := -(top + bottom) / height
  let t_z := -(z_far + z_near) / depth
  ⟨s_x, 0, 0, 0,
   0, s_y, 0, 0,
   0, 0, s_z, 0,
   t_x, t_y, t_z, 1⟩

/-- `Mat3.__invert__` (src/kiglent/matrix.py lines 80-111): the nine adjugate
entries, the determinant expanded along them, the singular early-return, and
the reciprocal scaling, exactly as in the source.  The `warnings.warn` call
is a non-raising side effect. -/
def Mat3.invert (s : Mat3) : Mat3 :=
  let a := s.e * s.i - s.h * s.f
  let b := s.g * s.f - s.d * s.i
  let c := s.d * s.h - s.e * s.g
  let d := s.h * s.c - s.b * s.i
  let e := s.a * s.i - s.g * s.c
  let f := s.g * s.b - s.a * s.h
  let g := s.b * s.f - s.e * s.c
  let h := s.d * s.c - s.a * s.f
  let i := s.a * s.e - s.d * s.b
  let det := s.a * a + s.d * d + s.g * g
  if det = 0 then
    s
  else
    let rep := 1 / det
    ⟨a * rep, b * rep, c * rep,
     d * rep, e * rep, f * rep,
     g * rep, h * rep, i * rep⟩

/-- `Mat4.__invert__` (src/kiglent/matrix.py lines 398-448): the 18
intermediate 2x2 products, the cofactor-expanded determinant, the singular
early-return, and the signed reciprocal scaling, exactly as in the source.
The source unpacks the stored fields as
`a11..a44 = self` (so `a11 = self.a`, `a12 = self.b`, ..., `a44 = self.p`). -/
def Mat4.invert (s : Mat4) : Mat4 :=
  let a := s.k * s.p - s.l * s.o
  let b := s.j * s.p - s.l * s.n
  let c := s.j * s.o - s.k * s.n
  let d := s.i * s.p - s.l * s.m
  let e := s.i * s.o - s.k * s.m
  let f := s.i * s.n - s.j * s.m
  let g := s.g * s.p - s.h * s.o
  let h := s.f * s.p - s.h * s.n
  let i := s.f * s.o - s.g * s.n
  let j := s.g * s.l - s.h * s.k
  let k := s.f * s.l - s.h * s.j
  let l := s.f * s.k - s.g * s.j
  let m := s.e * s.p - s.h * s.m
  let n := s.e * s.o - s.g * s.m
  let o := s.e * s.l - s.h * s.i
  let p := s.e * s.k - s.g * s.i
  let q := s.e * s.n - s.f * s.m
  let r := s.e * s.j - s.f * s.i
  let det := s.a * (s.f * a - s.g * b + s.h * c) -
             s.b * (s.e * a - s.g * d + s.h * e) +
             s.c * (s.e * b - s.f * d + s.h * f) -
             s.d * (s.e * c - s.f * e + s.g * f)
  if det = 0 then
    s
  else
    let pdet := 1 / det
    let ndet := -pdet
    ⟨pdet * (s.f * a - s.g * b + s.h * c),
     ndet * (s.b * a - s.c * b + s.d * c),
     pdet * (s.b * g - s.c * h + s.d * i),
     ndet * (s.b * j - s.c * k + s.d * l),
     ndet * (s.e * a - s.g * d + s.h * e),
     pdet * (s.a * a - s.c * d + s.d * e),
     ndet * (s.a * g - s.c * m + s.d * n),
     pdet * (s.a * j - s.c * o + s.d * p),
     pdet * (s.e * b - s.f * d + s.h * f),
     ndet * (s.a * b - s.b * d + s.d * f),
     pdet * (s.a * h - s.b * m + s.d * q),
     ndet * (s.a * k - s.b * o + s.d * r),
     ndet * (s.e * c - s.f * e + s.g * f),
     pdet * (s.a * c - s.b * e + s.c * f),
     ndet * (s.a * i - s.b * n + s.c * q),
     pdet * (s.a * l - s.b * p + s.c * r)⟩

/-! ## Quaternion — src/kiglent/matrix.py lines 498-631 -/

structure Quaternion where
  w : ℚ := 1
  x : ℚ := 0
  y : ℚ := 0
  z : ℚ := 0
  deriving DecidableEq, Repr

/-- `Quaternion.__matmul__` (src/kiglent/matrix.py lines 626-631).  The very
first statement of the body evaluates `Vec3(*self[1:])`, but `Vec3` is
unbound in the module namespace at runtime (the import at lines 21-22 is
`TYPE_CHECKING`-guarded), so every call raises `NameError`.  The `ok` branch
below is the Hamilton product the body would compute if the name resolved. -/
def Quaternion.matmul (q1 q2 : Quaternion) : Except PyError Quaternion :=
  if matrixModuleBindsVec3 then
    let a := q1.w
    let u : Vec3 := ⟨q1.x, q1.y, q1.z⟩
    let b := q2.w
    let v : Vec3 := ⟨q2.x, q2.y, q2.z⟩
    let scalar := a * b - u.dot v
    let vector := ((v.mulScalar a).addVec (u.mulScalar b)).addVec (u.cross v)
    .ok ⟨scalar, vector.x, vector.y, vector.z⟩
  else
    .error (.nameError "Vec3")

/-! ## Event dispatch — src/kiglent/event.py

An `EventDispatcher` instance owns `_events` (a mapping from event name to a
deque of callables: `add_event` uses `appendleft`, so the FRONT of the deque
is the most recently registered callable) and `_event_dispatcher_handlers`
(a deque of downstream `EventDispatcher`/`EventHandler` objects:
`push_handler` also uses `appendleft`).

Callables are modelled by an abstract handler type `H` together with a
result function `run : H → Bool` giving the truthiness of the value the
callable returns for the (fixed) dispatched arguments.  An `EventHandler`
(src/kiglent/event.py lines 104-109) forwards an event name straight to a
same-named method, modelled as a `String → Bool`. -/

/-- An object a dispatcher may delegate to: another `EventDispatcher`
(local queues plus its own downstream deque) or a plain `EventHandler`. -/
inductive Dispatchee (H : Type) where
  | dispatcher (events : String → List H) (downstream : List (Dispatchee H))
  | handler (method : String → Bool)

/-- The local callable queue a dispatcher holds for an event name
(`self._events.get(event)`; an `EventHandler` has no queue). -/
def Dispatchee.localQueue {H : Type} : Dispatchee H → String → List H
  | .dispatcher events _, ev => events ev
  | .handler _, _ => []

/-- `EventDispatcher.add_event` (src/kiglent/event.py lines 47-48):
`self._events[event].appendleft(func)` — the new callable goes to the front
of the queue for that name.  (No-op on a plain `EventHandler`, which has no
`add_event`.) -/
def Dispatchee.addEvent {H : Type} : Dispatchee H → String → H → Dispatchee H
  | .dispatcher events downstream, ev, h =>
      .dispatcher (fun e => if e = ev then h :: events e else events e) downstream
  | .handler method, _, _ => .handler method

/-- `EventDispatcher.push_handler` (src/kiglent/event.py lines 57-58):
`self._event_dispatcher_handlers.appendleft(handler)`. -/
def Dispatchee.pushHandler {H : Type} : Dispatchee H → Dispatchee H → Dispatchee H
  | .dispatcher events downstream, h => .dispatcher events (h :: downstream)
  | .handler method, _ => .handler method

/-- The local loop of `dispatch_event` (src/kiglent/event.py lines 84-88):
`for func in functions: if func(*args, **kwargs): return True`.  Returns the
handled flag together with the list of callables actually invoked, in
invocation order. -/
def localLoop {H : Type} (run : H → Bool) : List H → Bool × List H
  | [] => (false, [])
  | h :: t =>
      if run h then (true, [h])
      else
        let r := localLoop run t
        (r.1, h :: r.2)

mutual

/-- `dispatch_event` (src/kiglent/event.py lines 83-95 for `EventDispatcher`,
lines 105-106 for `EventHandler`), instrumented to also return the list of
local callables invoked anywhere in the delegation tree, in invocation
order: run the local queue front-first, return handled at the first truthy
result; otherwise consult the downstream deque front-first, delegating the
same dispatch; otherwise report unhandled (`False`). -/
def dispatchTrace {H : Type} (run : H → Bool) : Dispatchee H → String → Bool × List H
  | .handler method, ev => (method ev, [])
  | .dispatcher events downstream, ev =>
      let l := localLoop run (events ev)
      if l.1 then l
      else
        let dwn := downstreamLoop run downstream ev
        (dwn.1, l.2 ++ dwn.2)

/-- The downstream loop of `dispatch_event` (src/kiglent/event.py lines
90-93): `for handler in handlers: if handler.dispatch_event(...): return
True`. -/
def downstreamLoop {H : Type} (run : H → Bool) : List (Dispatchee H) → String → Bool × List H
  | [], _ => (false, [])
  | d :: rest, ev =>
      let t := dispatchTrace run d ev
      if t.1 then t
      else
        let r := downstreamLoop run rest ev
        (r.1, t.2 ++ r.2)

end

/-- The boolean result of `dispatch_event`: `True` when handled, `False`
when nothing handled the event. -/
def dispatch_event {H : Type} (run : H → Bool) (d : Dispatchee H) (ev : String) : Bool :=
  (dispatchTrace run d ev).1

/-! ## Key constants — src/kiglent/window/key.py -/

def MOD_SHIFT : ℕ := 1 <<< 0
def MOD_CTRL : ℕ := 1 <<< 1
def MOD_ALT : ℕ := 1 <<< 2
def MOD_CAPSLOCK : ℕ := 1 <<< 3
def MOD_NUMLOCK : ℕ := 1 <<< 4
def MOD_WINDOWS : ℕ := 1 <<< 5
def MOD_COMMAND : ℕ := 1 <<< 6
def MOD_OPTION : ℕ := 1 <<< 7
def MOD_SCROLLLOCK : ℕ := 1 <<< 8
def MOD_FUNCTION : ℕ := 1 <<< 9

/-- `modifiers_string` (src/kiglent/window/key.py lines 71-102): build the
name list by the source's exact sequence of `if modifiers & MOD_...:` checks
(truthy iff the bitwise AND is nonzero), then join with `'|'`.  Note the
source checks `MOD_SCROLLLOCK` between `MOD_NUMLOCK` and `MOD_COMMAND`, and
never checks `MOD_WINDOWS`. -/
def modifierNameList (modifiers : ℕ) : List String :=
  (if modifiers &&& MOD_SHIFT ≠ 0 then ["MOD_SHIFT"] else []) ++
  (if modifiers &&& MOD_CTRL ≠ 0 then ["MOD_CTRL"] else []) ++
  (if modifiers &&& MOD_ALT ≠ 0 then ["MOD_ALT"] else []) ++
  (if modifiers &&& MOD_CAPSLOCK ≠ 0 then ["MOD_CAPSLOCK"] else []) ++
  (if modifiers &&& MOD_NUMLOCK ≠ 0 then ["MOD_NUMLOCK"] else []) ++
  (if modifiers &&& MOD_SCROLLLOCK ≠ 0 then ["MOD_SCROLLLOCK"] else []) ++
  (if modifiers &&& MOD_COMMAND ≠ 0 then ["MOD_COMMAND"] else []) ++
  (if modifiers &&& MOD_OPTION ≠ 0 then ["MOD_OPTION"] else []) ++
  (if modifiers &&& MOD_FUNCTION ≠ 0 then ["MOD_FUNCTION"] else [])

def modifiers_string (modifiers : ℕ) : String :=
  String.intercalate "|" (modifierNameList modifiers)

/-- The claim's reading of `modifiers_string`: the `'|'`-joined names of
exactly the modifier flags set, in the order the constants are DECLARED
(src/kiglent/window/key.py lines 143-153), which lists `MOD_WINDOWS` sixth
and `MOD_SCROLLLOCK` ninth. -/
def claimedModifiersString (modifiers : ℕ) : String :=
  String.intercalate "|"
    ((([("MOD_SHIFT", MOD_SHIFT), ("MOD_CTRL", MOD_CTRL), ("MOD_ALT", MOD_ALT),
        ("MOD_CAPSLOCK", MOD_CAPSLOCK), ("MOD_NUMLOCK", MOD_NUMLOCK),
        ("MOD_WINDOWS", MOD_WINDOWS), ("MOD_COMMAND", MOD_COMMAND),
        ("MOD_OPTION", MOD_OPTION), ("MOD_SCROLLLOCK", MOD_SCROLLLOCK),
        ("MOD_FUNCTION", MOD_FUNCTION)] : List (String × ℕ)).filter
      (fun nb => modifiers &&& nb.2 != 0)).map Prod.fst)

/-- The order in which the source's `if` chain actually checks modifier
flags: `MOD_SCROLLLOCK` before `MOD_COMMAND`/`MOD_OPTION`, and `MOD_WINDOWS`
absent. -/
def checkedModifierOrder : List (String × ℕ) :=
  [("MOD_SHIFT", MOD_SHIFT), ("MOD_CTRL", MOD_CTRL), ("MOD_ALT", MOD_ALT),
   ("MOD_CAPSLOCK", MOD_CAPSLOCK), ("MOD_NUMLOCK", MOD_NUMLOCK),
   ("MOD_SCROLLLOCK", MOD_SCROLLLOCK), ("MOD_COMMAND", MOD_COMMAND),
   ("MOD_OPTION", MOD_OPTION), ("MOD_FUNCTION", MOD_FUNCTION)]

/-! ## BorderedRectangle color validation — src/shapes/rectangle.py -/

/-- A color argument: an RGB 3-tuple or an RGBA 4-tuple of 0-255 ints. -/
inductive ColorValue where
  | rgb (r g b : ℤ)
  | rgba (r g b a : ℤ)
  deriving DecidableEq, Repr

/-- The alpha tail of the starred unpack
`fill_r, fill_g, fill_b, *fill_a = color`: `[]` for RGB, `[a]` for RGBA. -/
def ColorValue.alphaTail : ColorValue → List ℤ
  | .rgb _ _ _ => []
  | .rgba _ _ _ a => [a]

/-- The first three components of a color argument. -/
def ColorValue.rgbPart : ColorValue → ℤ × ℤ × ℤ
  | .rgb r g b => (r, g, b)
  | .rgba r g b _ => (r, g, b)

/-- The alpha-resolution part of `BorderedRectangle.__init__`
(src/shapes/rectangle.py lines 305-325): unpack both colors, start from
a default alpha of 255, raise `ValueError` when both alpha tails are
non-empty and disagree, otherwise prefer the fill alpha, then the border
alpha; store the shared alpha in both internal RGBA tuples. -/
def borderedRectangleColors (color border_color : ColorValue) :
    Except PyError ((ℤ × ℤ × ℤ × ℤ) × (ℤ × ℤ × ℤ × ℤ)) :=
  let fill_a := color.alphaTail
  let border_a := border_color.alphaTail
  if fill_a ≠ [] ∧ border_a ≠ [] ∧ fill_a.headI ≠ border_a.headI then
    .error .valueError
  else
    let alpha : ℤ :=
      if fill_a ≠ [] then fill_a.headI
      else if border_a ≠ [] then border_a.headI
      else 255
    let (fr, fg, fb) := color.rgbPart
    let (br, bg, bb) := border_color.rgbPart
    .ok ((fr, fg, fb, alpha), (br, bg, bb, alpha))

/-- The claim's reading of the constructor: fail iff both colors are
4-tuples with differing alphas; otherwise both internal RGBA values share a
single alpha — the one alpha supplied, or 255 when neither color has one. -/
def claimedBorderedRectangleColors (color border_color : ColorValue) :
    Except PyError ((ℤ × ℤ × ℤ × ℤ) × (ℤ × ℤ × ℤ × ℤ)) :=
  match color, border_color with
  | .rgba fr fg fb fa, .rgba br bg bb ba =>
      if fa ≠ ba then .error .valueError
      else .ok ((fr, fg, fb, fa), (br, bg, bb, fa))
  | .rgba fr fg fb fa, .rgb br bg bb => .ok ((fr, fg, fb, fa), (br, bg, bb, fa))
  | .rgb fr fg fb, .rgba br bg bb ba => .ok ((fr, fg, fb, ba), (br, bg, bb, ba))
  | .rgb fr fg fb, .rgb br bg bb => .ok ((fr, fg, fb, 255), (br, bg, bb, 255))

/-! ## Audio driver factories — src/media/drivers/{openal,pulse}/__init__.py

Both modules read `kiglent.options` ONCE, at module import time, into
module-level variables (`_debug = kiglent.options['debug_media']`,
and for OpenAL additionally
`_debug_buffers = kiglent.options.get('debug_media_buffers', False)`).
`create_audio_driver` then consults only those captured variables. -/

/-- The global `kiglent.options` mapping, restricted to the media flags. -/
structure MediaOptions where
  debug_media : Bool
  debug_media_buffers : Bool
  deriving DecidableEq, Repr

/-- Module-level state of `src/media/drivers/openal/__init__.py`
(lines 5-6), captured when the module is imported. -/
structure OpenALModule where
  debugFlag : Bool
  debugBuffersFlag : Bool
  deriving DecidableEq, Repr

/-- Importing the OpenAL driver module: `_debug = kiglent.options['debug_media']`
and `_debug_buffers = kiglent.options.get('debug_media_buffers', False)`. -/
def OpenALModule.load (options : MediaOptions) : OpenALModule :=
  ⟨options.debug_media, options.debug_media_buffers⟩

/-- Whether `create_audio_driver` in the OpenAL module
(src/media/drivers/openal/__init__.py lines 9-13) prints the version line:
`if _debug: print('OpenAL', _driver.get_version())`.  The body never reads
`kiglent.options`, so the value of the options mapping at call time
(`optionsAtCall`) is unused. -/
def openalDriverPrintsDebug (modState : OpenALModule) (_optionsAtCall : MediaOptions) : Bool :=
  modState.debugFlag

/-- Module-level state of `src/media/drivers/pulse/__init__.py` (line 5). -/
structure PulseModule where
  debugFlag : Bool
  deriving DecidableEq, Repr

/-- Importing the PulseAudio driver module:
`_debug = kiglent.options['debug_media']`. -/
def PulseModule.load (options : MediaOptions) : PulseModule :=
  ⟨options.debug_media⟩

/-- Whether `create_audio_driver` in the PulseAudio module
(src/media/drivers/pulse/__init__.py lines 8-13) dumps verbose debug info:
`if _debug: driver.dump_debug_info()`.  The body never reads
`kiglent.options`, so `optionsAtCall` is unused. -/
def pulseDriverDumpsDebug (modState : PulseModule) (_optionsAtCall : MediaOptions) : Bool :=
  modState.debugFlag

/-! ## Standard determinants (used to state the inversion claim) -/

/-- Determinant of a 3x3 matrix given row by row. -/
def det3x3 (a b c d e f g h i : ℚ) : ℚ :=
  a * (e * i - f * h) - b * (d * i - f * g) + c * (d * h - e * g)

/-- The determinant of a `Mat3`.  The 9 fields are expanded in storage
order; since a matrix and its transpose have the same determinant, this is
the determinant of the stored column-major matrix. -/
def Mat3.det (s : Mat3) : ℚ :=
  det3x3 s.a s.b s.c s.d s.e s.f s.g s.h s.i

/-- The determinant of a `Mat4`, by cofactor expansion along the first four
stored fields; again transpose-invariance makes the storage order
irrelevant. -/
def Mat4.det (s : Mat4) : ℚ :=
  s.a * det3x3 s.f s.g s.h s.j s.k s.l s.n s.o s.p
  - s.b * det3x3 s.e s.g s.h s.i s.k s.l s.m s.o s.p
  + s.c * det3x3 s.e s.f s.h s.i s.j s.l s.m s.n s.p
  - s.d * det3x3 s.e s.f s.g s.i s.j s.k s.m s.n s.o

/-! ## Theorems -/

/-- C1: the spec says `Mat4 @ Vec4` (and `Mat3 @ Vec3`) detects the
4-element (3-element) operand and yields the product vector.  The dispatch
does reach the vector branch, but that branch evaluates `Vec4(...)`
(`Vec3(...)`) with the name unbound at runtime — the import at
src/kiglent/matrix.py lines 21-22 is `TYPE_CHECKING`-guarded — so every
matrix-by-vector multiplication raises `NameError` instead of returning a
vector.  The claim is the clear intent (the source's own `@overload`
annotations declare the vector result); the code is a slip. -/
theorem c1_matmul_vector_raises_nameerror (x : Mat4) (v : Vec4) (m : Mat3) (u : Vec3) :
    x.matmul (.vec v) = .error (.nameError "Vec4") ∧
    m.matmul (.vec u) = .error (.nameError "Vec3") := by
  exact ⟨rfl, rfl⟩

/-- C1 witness: the failing input `Mat4() @ Vec4(1.0, 2.0, 3.0, 4.0)`
(and `Mat3() @ Vec3(1.0, 2.0, 3.0)`) evaluated concretely. -/
theorem c1_matmul_vector_raises_nameerror_witness :
    Mat4.matmul Mat4.identity (.vec ⟨1, 2, 3, 4⟩) = .error (.nameError "Vec4") ∧
    Mat3.matmul Mat3.identity (.vec ⟨1, 2, 3⟩) = .error (.nameError "Vec3") :=
  c1_matmul_vector_raises_nameerror Mat4.identity ⟨1, 2, 3, 4⟩ Mat3.identity ⟨1, 2, 3⟩

/-- C2: the spec says `q1 @ q2` returns the Hamilton product.  The body of
`Quaternion.__matmul__` (src/kiglent/matrix.py lines 626-631) begins with
`Vec3(*self[1:])`, and `Vec3` is unbound in the module namespace at runtime,
so every quaternion multiplication raises `NameError` instead of returning
the Hamilton product.  The claim is the clear intent; the code is a slip. -/
theorem c2_quaternion_matmul_raises_nameerror (q1 q2 : Quaternion) :
    q1.matmul q2 = .error (.nameError "Vec3") :=
  rfl

/-- C3 counterexample: `Mat4.orthogonal_projection(-1, 1, -1, 1, -1, 1)` is
NOT the identity matrix — its third diagonal entry is `2 / -(1 - -1) = -1`,
not `1` (src/kiglent/matrix.py line 206: `s_z = 2.0 / -depth`). -/
theorem c3_ortho_projection_not_identity :
    Mat4.orthogonal_projection (-1) 1 (-1) 1 (-1) 1 ≠ Mat4.identity := by
  simp only [Mat4.orthogonal_projection, Mat4.identity, ne_eq, Mat4.mk.injEq]
  norm_num

/-- C3 (amended): `Mat4.orthogonal_projection(-1, 1, -1, 1, -1, 1)` equals
the identity matrix in every entry except the z-scale entry, which is `-1`:
the result is `diag(1, 1, -1, 1)`. -/
theorem c3_ortho_projection_value :
    Mat4.orthogonal_projection (-1) 1 (-1) 1 (-1) 1 =
      ⟨1, 0, 0, 0, 0, 1, 0, 0, 0, 0, -1, 0, 0, 0, 0, 1⟩ := by
  simp only [Mat4.orthogonal_projection, Mat4.mk.injEq]
  norm_num

/-- C8: adding the integer `0` to a `Vec2`, `Vec3`, or `Vec4` on either side
succeeds and returns the vector unchanged.  `v + 0` runs `__add__`, where
subscripting the integer raises `TypeError` and the scalar-broadcast
fallback adds `0` to every component; `0 + v` runs `__radd__`, which
delegates to the same `__add__`. -/
theorem c8_vector_add_zero (v2 : Vec2) (v3 : Vec3) (v4 : Vec4) :
    v2.add (.scalar 0) = v2 ∧ v2.radd (.scalar 0) = v2 ∧
    v3.add (.scalar 0) = v3 ∧ v3.radd (.scalar 0) = v3 ∧
    v4.add (.scalar 0) = v4 ∧ v4.radd (.scalar 0) = v4 := by
  obtain ⟨x2, y2⟩ := v2
  obtain ⟨x3, y3, z3⟩ := v3
  obtain ⟨x4, y4, z4, w4⟩ := v4
  simp [Vec2.add, Vec2.radd, Vec3.add, Vec3.radd, Vec4.add, Vec4.radd]

/-- C9 counterexample: with `debug_media` disabled when the driver module
was imported but enabled at the time `create_audio_driver` is called,
neither factory produces its debug output — the claim predicts both would.
The flag is captured into the module-level `_debug` at import time
(src/media/drivers/openal/__init__.py line 5,
src/media/drivers/pulse/__init__.py line 5). -/
theorem c9_debug_flag_not_read_at_call :
    openalDriverPrintsDebug (OpenALModule.load ⟨false, false⟩) ⟨true, true⟩ ≠ true ∧
    pulseDriverDumpsDebug (PulseModule.load ⟨false, false⟩) ⟨true, true⟩ ≠ true := by
  decide

/-- C9 (amended): both factories read `debug_media` ONCE, at module import
time; on every call the debug output is produced if and only if
`debug_media` was enabled when the module was loaded, regardless of its
value at the call. -/
theorem c9_debug_flag_read_at_import (loadOpts optionsAtCall : MediaOptions) :
    openalDriverPrintsDebug (OpenALModule.load loadOpts) optionsAtCall = loadOpts.debug_media ∧
    pulseDriverDumpsDebug (PulseModule.load loadOpts) optionsAtCall = loadOpts.debug_media :=
  ⟨rfl, rfl⟩

/-- C10: `Mat3.translate(tx, ty)` right-multiplies `self` by the matrix
whose translation column is `(-tx, +ty, 1)` (src/kiglent/matrix.py lines
53-54): the x offset is negated, the y offset is not; consequently
`translate(tx, ty)` followed by `translate(-tx, -ty)` restores the original
matrix. -/
theorem c10_translate_negates_x (m : Mat3) (tx ty : ℚ) :
    (m.translate tx ty).translate (-tx) (-ty) = m ∧
    Mat3.identity.translate tx ty = ⟨1, 0, 0, 0, 1, 0, -tx, ty, 1⟩ := by
  obtain ⟨a, b, c, d, e, f, g, h, i⟩ := m
  constructor
  · simp only [Mat3.translate, Mat3.matmulMat, Mat3.mk.injEq]
    refine ⟨?_, ?_, ?_, ?_, ?_, ?_, ?_, ?_, ?_⟩ <;> ring
  · simp only [Mat3.translate, Mat3.matmulMat, Mat3.identity, Mat3.mk.injEq]
    norm_num

/-- C6 counterexample: `modifiers_string(MOD_WINDOWS)` returns the empty
string — the source's `if` chain (src/kiglent/window/key.py lines 84-101)
never checks `MOD_WINDOWS` — while the claim predicts `"MOD_WINDOWS"`. -/
theorem c6_modifiers_string_windows_missing :
    modifiers_string MOD_WINDOWS ≠ claimedModifiersString MOD_WINDOWS := by
  decide

/-- Filtering a name/bit list by a set-bit test and keeping the names is the
same as concatenating a singleton-or-empty segment per pair. -/
theorem filterPairsAsSegments (m : ℕ) (l : List (String × ℕ)) :
    (l.filter (fun nb => m &&& nb.2 != 0)).map Prod.fst =
      l.foldr (fun nb acc => (if m &&& nb.2 ≠ 0 then [nb.1] else []) ++ acc) [] := by
  induction l with
  | nil => rfl
  | cons a t ih =>
      by_cases h : m &&& a.2 = 0 <;>
        simp [List.filter_cons, bne_iff_ne, h, ih]

/-- C6 (amended): `modifiers_string` joins with `'|'` the names of exactly
the flags set among the nine it checks — `MOD_WINDOWS` is never rendered —
and in the source's check order, which places `MOD_SCROLLLOCK` before
`MOD_COMMAND` and `MOD_OPTION` rather than in declared-constant order. -/
theorem c6_modifiers_string_checked_order (m : ℕ) :
    modifiers_string m =
      String.intercalate "|"
        ((checkedModifierOrder.filter (fun nb => m &&& nb.2 != 0)).map Prod.fst) := by
  unfold modifiers_string
  apply congrArg (String.intercalate "|")
  rw [filterPairsAsSegments]
  simp only [modifierNameList, checkedModifierOrder, List.foldr_cons, List.foldr_nil,
    List.append_nil, List.append_assoc]

/-- C7: constructing a `BorderedRectangle` raises `ValueError` iff both
`color` and `border_color` are 4-tuples with differing alphas; otherwise the
fill and border colors share one alpha — the supplied one, or 255 when
neither color carries one — stored in both internal RGBA tuples
(src/shapes/rectangle.py lines 305-325). -/
theorem c7_bordered_rectangle_alpha (color border_color : ColorValue) :
    borderedRectangleColors color border_color =
      claimedBorderedRectangleColors color border_color := by
  cases color <;> cases border_color <;>
    simp [borderedRectangleColors, claimedBorderedRectangleColors,
      ColorValue.alphaTail, ColorValue.rgbPart]

/-- The stored 9-tuple with the two storage axes swapped (a mathematical
helper; the source's `Mat3` has no transpose method). -/
def Mat3.transposed (s : Mat3) : Mat3 :=
  ⟨s.a, s.d, s.g, s.b, s.e, s.h, s.c, s.f, s.i⟩

/-- The singular branch of `Mat3.__invert__` returns the matrix unchanged. -/
theorem mat3_invert_singular (s : Mat3) (hd : s.det = 0) : s.invert = s := by
  simp only [Mat3.det, det3x3] at hd
  simp only [Mat3.invert]
  rw [if_pos (by linear_combination hd)]

/-- The singular branch of `Mat4.__invert__` returns the matrix unchanged. -/
theorem mat4_invert_singular (t : Mat4) (hd : t.det = 0) : t.invert = t := by
  obtain ⟨a, b, c, d, e, f, g, h, i, j, k, l, m, n, o, p⟩ := t
  simp only [Mat4.det, det3x3] at hd
  simp only [Mat4.invert]
  rw [if_pos (by linear_combination hd)]

/-- What `Mat3.__invert__` actually returns for a nonsingular matrix: the
cofactor matrix over the determinant WITHOUT the adjugate's transposition,
i.e. the inverse of the transposed matrix. -/
theorem mat3_invert_mul_transposed (s : Mat3) (hd : s.det ≠ 0) :
    s.invert.matmulMat s.transposed = Mat3.identity := by
  obtain ⟨a, b, c, d, e, f, g, h, i⟩ := s
  simp only [Mat3.det, det3x3] at hd
  simp only [Mat3.invert]
  split
  next hc => exact absurd (by linear_combination hc) hd
  next hc =>
    simp only [Mat3.matmulMat, Mat3.transposed, Mat3.identity, Mat3.mk.injEq]
    refine ⟨?_, ?_, ?_, ?_, ?_, ?_, ?_, ?_, ?_⟩ <;>
      · field_simp
        ring

set_option maxHeartbeats 2000000 in
/-- `Mat4.__invert__` of a nonsingular matrix is a genuine left inverse. -/
theorem mat4_invert_mul_left (t : Mat4) (hd : t.det ≠ 0) :
    t.invert.matmulMat t = Mat4.identity := by
  obtain ⟨a, b, c, d, e, f, g, h, i, j, k, l, m, n, o, p⟩ := t
  simp only [Mat4.det, det3x3] at hd
  simp only [Mat4.invert]
  split
  next hc => exact absurd (by linear_combination hc) hd
  next hc =>
    simp only [Mat4.matmulMat, Mat4.identity, Mat4.mk.injEq]
    refine ⟨?_, ?_, ?_, ?_, ?_, ?_, ?_, ?_, ?_, ?_, ?_, ?_, ?_, ?_, ?_, ?_⟩ <;>
      · field_simp
        ring

set_option maxHeartbeats 2000000 in
/-- `Mat4.__invert__` of a nonsingular matrix is a genuine right inverse. -/
theorem mat4_invert_mul_right (t : Mat4) (hd : t.det ≠ 0) :
    t.matmulMat t.invert = Mat4.identity := by
  obtain ⟨a, b, c, d, e, f, g, h, i, j, k, l, m, n, o, p⟩ := t
  simp only [Mat4.det, det3x3] at hd
  simp only [Mat4.invert]
  split
  next hc => exact absurd (by linear_combination hc) hd
  next hc =>
    simp only [Mat4.matmulMat, Mat4.identity, Mat4.mk.injEq]
    refine ⟨?_, ?_, ?_, ?_, ?_, ?_, ?_, ?_, ?_, ?_, ?_, ?_, ?_, ?_, ?_, ?_⟩ <;>
      · field_simp
        ring

/-- C4: the singular policy holds — a `Mat3`/`Mat4` with determinant exactly
0 is returned unchanged after a non-fatal warning — and `Mat4.__invert__`
does return the adjugate/determinant inverse (a two-sided inverse).  But
`Mat3.__invert__` (src/kiglent/matrix.py lines 84-111) assembles the
cofactors WITHOUT the adjugate's transposition, so for a nonsingular
non-symmetric `Mat3` it returns the inverse of the transpose: `~M @ M` is
not the identity, contradicting the code's own comment
`A^-1 = def(A)^-1 * adj(A)`.  The final conjunct evaluates the failing
input `Mat3(1, 0, 0, 2, 1, 0, 0, 0, 1)`. -/
theorem c4_invert_singular_policy (s : Mat3) (t : Mat4) :
    (s.det = 0 → s.invert = s) ∧
    (t.det = 0 → t.invert = t) ∧
    (t.det ≠ 0 → t.invert.matmulMat t = Mat4.identity ∧ t.matmulMat t.invert = Mat4.identity) ∧
    (s.det ≠ 0 → s.invert.matmulMat s.transposed = Mat3.identity) ∧
    Mat3.matmulMat (Mat3.invert ⟨1, 0, 0, 2, 1, 0, 0, 0, 1⟩) ⟨1, 0, 0, 2, 1, 0, 0, 0, 1⟩ ≠
      Mat3.identity := by
  refine ⟨mat3_invert_singular s, mat4_invert_singular t,
    fun hd => ⟨mat4_invert_mul_left t hd, mat4_invert_mul_right t hd⟩,
    mat3_invert_mul_transposed s, ?_⟩
  norm_num [Mat3.invert, Mat3.matmulMat, Mat3.identity, Mat3.mk.injEq]

/-- C4 witness: the all-zero `Mat3`/`Mat4` (determinant 0) invert to
themselves; a concrete nonsingular `Mat4` inverts to a two-sided inverse;
the concrete nonsingular `Mat3` multiplies its transpose to the identity. -/
theorem c4_invert_singular_policy_witness :
    Mat3.invert ⟨0, 0, 0, 0, 0, 0, 0, 0, 0⟩ = ⟨0, 0, 0, 0, 0, 0, 0, 0, 0⟩ ∧
    Mat4.invert ⟨0, 0, 0, 0, 0, 0, 0, 0, 0, 0, 0, 0, 0, 0, 0, 0⟩ =
      ⟨0, 0, 0, 0, 0, 0, 0, 0, 0, 0, 0, 0, 0, 0, 0, 0⟩ ∧
    Mat4.matmulMat (Mat4.invert ⟨2, 0, 0, 0, 0, 3, 0, 0, 0, 0, 4, 0, 0, 0, 0, 5⟩)
      ⟨2, 0, 0, 0, 0, 3, 0, 0, 0, 0, 4, 0, 0, 0, 0, 5⟩ = Mat4.identity ∧
    Mat3.matmulMat (Mat3.invert ⟨1, 0, 0, 2, 1, 0, 0, 0, 1⟩)
      (Mat3.transposed ⟨1, 0, 0, 2, 1, 0, 0, 0, 1⟩) = Mat3.identity :=
  ⟨(c4_invert_singular_policy ⟨0, 0, 0, 0, 0, 0, 0, 0, 0⟩
      ⟨0, 0, 0, 0, 0, 0, 0, 0, 0, 0, 0, 0, 0, 0, 0, 0⟩).1
      (by norm_num [Mat3.det, det3x3]),
   (c4_invert_singular_policy ⟨0, 0, 0, 0, 0, 0, 0, 0, 0⟩
      ⟨0, 0, 0, 0, 0, 0, 0, 0, 0, 0, 0, 0, 0, 0, 0, 0⟩).2.1
      (by norm_num [Mat4.det, det3x3]),
   ((c4_invert_singular_policy ⟨1, 0, 0, 2, 1, 0, 0, 0, 1⟩
      ⟨2, 0, 0, 0, 0, 3, 0, 0, 0, 0, 4, 0, 0, 0, 0, 5⟩).2.2.1
      (by norm_num [Mat4.det, det3x3])).1,
   (c4_invert_singular_policy ⟨1, 0, 0, 2, 1, 0, 0, 0, 1⟩
      ⟨2, 0, 0, 0, 0, 3, 0, 0, 0, 0, 4, 0, 0, 0, 0, 5⟩).2.2.2.1
      (by norm_num [Mat3.det, det3x3])⟩

/-- The local loop invokes the queue front-first and stops at the first
truthy callable: it returns handled with the falsy prefix plus that first
truthy callable as its invocation log, or unhandled with the whole queue
invoked. -/
theorem localLoopSpec {H : Type} (run : H → Bool) (l : List H) :
    localLoop run l =
      if l.any run then
        (true, l.takeWhile (fun x => !(run x)) ++ (l.find? run).toList)
      else (false, l) := by
  induction l with
  | nil => rfl
  | cons h t ih =>
      by_cases hr : run h
      · simp [localLoop, hr, List.any_cons, List.takeWhile_cons, List.find?_cons_of_pos]
      · rw [localLoop, if_neg (by simp [hr]), ih]
        by_cases ha : t.any run <;>
          simp [hr, ha, List.any_cons, List.takeWhile_cons, List.find?_cons_of_neg]

/-- The downstream loop reports handled iff some downstream dispatchee
handles the event. -/
theorem downstreamLoopAny {H : Type} (run : H → Bool) (ds : List (Dispatchee H)) (ev : String) :
    (downstreamLoop run ds ev).1 = ds.any (fun d => (dispatchTrace run d ev).1) := by
  induction ds with
  | nil => rfl
  | cons d rest ih =>
      rw [downstreamLoop]
      by_cases h1 : (dispatchTrace run d ev).1 <;> simp [h1, ih]

/-- C5: `add_event` puts new callables at the front of the queue; dispatch
tries the local queue in most-recently-registered-first order and stops at
the first truthy result without consulting anything further (the invocation
log is the falsy prefix plus that one callable); only when no local
callable handles the event are downstream handlers consulted (themselves
most-recently-pushed-first, the whole local queue having been invoked); and
the call reports unhandled (falsy) iff no local callable and no downstream
dispatchee handles it. -/
theorem c5_dispatch_event_order {H : Type} (run : H → Bool) (events : String → List H)
    (downstream : List (Dispatchee H)) (ev : String) (h : H) :
    (Dispatchee.addEvent (.dispatcher events downstream) ev h).localQueue ev = h :: events ev ∧
    dispatchTrace run (.dispatcher events downstream) ev =
      (if (events ev).any run then
        (true, (events ev).takeWhile (fun x => !(run x)) ++ ((events ev).find? run).toList)
      else
        (downstream.any (fun d => (dispatchTrace run d ev).1),
          events ev ++ (downstreamLoop run downstream ev).2)) ∧
    (dispatch_event run (.dispatcher events downstream) ev = false ↔
      (∀ x ∈ events ev, run x = false) ∧
      ∀ sub ∈ downstream, dispatch_event run sub ev = false) := by
  have htrace : dispatchTrace run (.dispatcher events downstream) ev =
      (if (events ev).any run then
        (true, (events ev).takeWhile (fun x => !(run x)) ++ ((events ev).find? run).toList)
      else
        (downstream.any (fun d => (dispatchTrace run d ev).1),
          events ev ++ (downstreamLoop run downstream ev).2)) := by
    rw [dispatchTrace, localLoopSpec]
    by_cases ha : (events ev).any run <;> simp [ha, downstreamLoopAny]
  refine ⟨by simp [Dispatchee.addEvent, Dispatchee.localQueue], htrace, ?_⟩
  unfold dispatch_event
  rw [htrace]
  by_cases ha : (events ev).any run
  · rw [if_pos ha]
    simp only [Prod.fst]
    constructor
    · intro hcontra
      exact absurd hcontra (by simp)
    · rintro ⟨hall, -⟩
      rw [List.any_eq_true] at ha
      obtain ⟨x, hx, hrx⟩ := ha
      exact absurd (hall x hx) (by simp [hrx])
  · rw [if_neg ha]
    rw [Bool.not_eq_true, List.any_eq_false] at ha
    constructor
    · intro hfa
      replace hfa : downstream.any (fun d => (dispatchTrace run d ev).1) = false := hfa
      rw [List.any_eq_false] at hfa
      refine ⟨fun x hx => by simpa using ha x hx, fun sub hsub => ?_⟩
      simpa using hfa sub hsub
    · rintro ⟨-, hsubs⟩
      show downstream.any (fun d => (dispatchTrace run d ev).1) = false
      rw [List.any_eq_false]
      intro sub hsub
      simpa using hsubs sub hsub

end Kiglent
